import Mathlib

/-!
# Verification of the flotta device-worker-ng HTTP envelope client and profile manager

Shallow embedding of `src/internal/client/http/client.go` and the profile
manager loop (`src/unnamed/part_000`, package `state`), with theorems settling
the specification claims about transport rotation, middleware composition,
envelope decoding, status handling, URL construction and tick emission.
-/

namespace DeviceWorker

/-- Byte sequences (Go `[]byte`), modelled as lists of naturals. -/
abbrev Bytes := List Nat

/-- JSON-like dynamic values: the shapes `json.Unmarshal` produces when
decoding into `interface\x7b\x7d` (objects become string-keyed maps, arrays
become slices, strings/numbers/bools/null become the corresponding scalars). -/
inductive JValue where
  | jstr : String → JValue
  | jnum : Int → JValue
  | jbool : Bool → JValue
  | jnull : JValue
  | jarr : List JValue → JValue
  | jobj : List (String × JValue) → JValue

/-- Go map indexing `m[key]` with the `, ok` form, for a field-keyed mapping. -/
def lookupField : List (String × JValue) → String → Option JValue
  | [], _ => none
  | (k, v) :: rest, key => if k = key then some v else lookupField rest key

/-- UTF-8 encoding of one Unicode code point, as Go produces for `[]byte(s)`
and `bytes.NewBufferString(s).Bytes()`. -/
def utf8EncodeChar (c : Nat) : List Nat :=
  if c < 0x80 then [c]
  else if c < 0x800 then [0xC0 + c / 64, 0x80 + c % 64]
  else if c < 0x10000 then [0xE0 + c / 4096, 0x80 + (c / 64) % 64, 0x80 + c % 64]
  else [0xF0 + c / 262144, 0x80 + (c / 4096) % 64, 0x80 + (c / 64) % 64, 0x80 + c % 64]

/-- The bytes of a Go string: UTF-8 encoding of its characters
(`bytes.NewBufferString(cert.(string)).Bytes()` in `Client.Register`). -/
def stringBytes (s : String) : Bytes :=
  s.data.foldr (fun c acc => utf8EncodeChar c.toNat ++ acc) []

/-- Model of `models.MessageResponse`: the generic envelope reply; only its `Content`
field (an `interface\x7b\x7d` holding the decoded JSON) is consumed by the client. -/
structure MessageResponse where
  content : JValue

/-- The raw reply body, abstracted at the `json.Unmarshal` boundary: either the
bytes fail to parse as a `MessageResponse`, or they parse to one. -/
inductive Body where
  | malformed : Body
  | wellFormed : MessageResponse → Body

/-- An `http.Response` as the client consumes it: status code and body. -/
structure HttpResponse where
  statusCode : Nat
  body : Body

/-- The outcome of a Go function returning `(α, error)`: `ret v e` is a normal
return of value `v` with error `e` (`none` = `nil`), `panicked` a runtime panic. -/
inductive GoOutcome (α : Type) where
  | ret : α → Option String → GoOutcome α
  | panicked : String → GoOutcome α
  deriving DecidableEq, Repr

/-- Model of `entities.RegistrationResponse`: holds the signed CSR bytes. -/
structure RegistrationResponse where
  signedCSR : Bytes
  deriving DecidableEq, Repr

/-- Constant `certificateKey` of `client.go`. -/
def certificateKey : String := "certificate"

/-- Constant `rootUrl` of `client.go`. -/
def rootUrl : String := "/api/flotta-management/v1"

/-- Function `Client.processResponse`: read the body (reading itself cannot fail in this
model), then `json.Unmarshal` it into a `MessageResponse`; a parse failure is
wrapped into a descriptive error. -/
def processResponse (res : HttpResponse) : Except String MessageResponse :=
  match res.body with
  | .malformed => .error "cannot read marshal body into message response"
  | .wellFormed m => .ok m

/-- The decode part of `Client.Register` (lines 115-131): process the response,
assert the content is a field-keyed map, index the `certificate` key with the
`, ok` form, then run the UNCHECKED Go type assertion `cert.(string)` — which
panics when the value is present but not a string. -/
def register (res : HttpResponse) : GoOutcome RegistrationResponse :=
  match processResponse res with
  | .error e => .ret ⟨[]⟩ (some e)
  | .ok message =>
    match message.content with
    | .jobj certMap =>
      match lookupField certMap certificateKey with
      | none => .ret ⟨[]⟩ (some "cannot get certificate from payload")
      | some cert =>
        match cert with
        | .jstr s => .ret ⟨stringBytes s⟩ none
        | _ => .panicked "interface conversion: certificate value is not a string"
    | _ => .ret ⟨[]⟩ (some "payload content is not a map")

/-- The decode part of `Client.GetConfiguration` (lines 176-203). The tail of
the pipeline — `json.Marshal` of the extracted field, `json.Unmarshal` into
`models.DeviceConfiguration`, and the pure `configurationModel2Entity`
translation — lives outside the analysed source, so it is abstracted as one
function `translate` from the field value to an optional entity (`none` = the
re-decode fails); `emptyConf` models the zero `entities.DeviceConfiguration`. -/
def getConfiguration {γ : Type} (translate : JValue → Option γ) (emptyConf : γ)
    (res : HttpResponse) : GoOutcome γ :=
  match processResponse res with
  | .error e => .ret emptyConf (some e)
  | .ok message =>
    match message.content with
    | .jobj data =>
      match lookupField data "configuration" with
      | none => .ret emptyConf (some "cannot find configuration data in payload")
      | some conf =>
        match translate conf with
        | none => .ret emptyConf (some "cannot read configuration")
        | some m => .ret m none
    | _ => .ret emptyConf (some "payload content is not a map")

/-- The status handling of `Client.Enrol` (lines 90-94): status ≥ 400 is an
error naming the operation and the code, anything below is success (`none`). -/
def enrolStatusError (statusCode : Nat) : Option String :=
  if statusCode ≥ 400 then some ("cannot enrol device. code: " ++ toString statusCode)
  else none

/-- The status handling of `Client.Heartbeat` (lines 152-156). -/
def heartbeatStatusError (statusCode : Nat) : Option String :=
  if statusCode ≥ 400 then some ("cannot send heartbeat. code: " ++ toString statusCode)
  else none

/-- The request URL of the outgoing operations Enrol, Register and Heartbeat:
`fmt.Sprintf("%s/%s/data/%s/out", c.serverURL.String(), rootUrl, deviceID)`. -/
def outgoingUrl (serverURL deviceID : String) : String :=
  serverURL ++ "/" ++ rootUrl ++ "/data/" ++ deviceID ++ "/out"

/-- The request URL of GetConfiguration:
`fmt.Sprintf("%s/%s/data/%s/in", c.serverURL.String(), rootUrl, deviceID)`. -/
def incomingUrl (serverURL deviceID : String) : String :=
  serverURL ++ "/" ++ rootUrl ++ "/data/" ++ deviceID ++ "/in"

/-! ## Middleware chain composition (`Client.createTransport`, lines 247-252)

A `transportWrapper` is a function from transport to transport; the loop
`for i := len(ws) - 1; i >= 0; i--  \x7b result = ws[i](result) \x7d` is embedded
as the index-driven recursion `wrapFrom`, over any transport type `α`. -/

/-- The loop body of `createTransport`: `wrapFrom ws i r` applies the wrappers
`ws[i-1], ..., ws[0]` (in that order of application) to the running result `r`,
exactly as the Go loop does counting `i` down. Out-of-range indices (which the
loop never touches) default to the identity. -/
def wrapFrom {α : Type} (ws : List (α → α)) : Nat → α → α
  | 0, result => result
  | i + 1, result => wrapFrom ws i ((ws.getD i id) result)

/-- The wrapper-application part of `Client.createTransport`: start from the
base transport and run the loop from index `len(ws) - 1` down to `0`. -/
def wrapTransports {α : Type} (ws : List (α → α)) (base : α) : α :=
  wrapFrom ws ws.length base

/-- A round tripper instrumented to record the traversal order of a request:
it maps the list of wrapper names that have already seen the request to the
full trace. The base transport marks itself with `1000` and turns the request
trace into the response. -/
def traceBase : List Nat → List Nat := fun pre => pre ++ [1000]

/-- A tracing transport wrapper named `name`: it stamps the request before
delegating to the inner round tripper, and stamps the response after. -/
def traceWrapper (name : Nat) : (List Nat → List Nat) → (List Nat → List Nat) :=
  fun inner pre => inner (pre ++ [name]) ++ [name]

/-! ## Transport cache / rotation guard (`Client.getClient`, lines 217-235) -/

/-- The cached transport, tracked up to the data that identifies a build: the
TLS material snapshot is tagged by the signature current at build time, and
`New` registers exactly one wrapper (the log wrapper, index `0`), applied by
`createTransport` around the base transport. -/
inductive RTrans where
  | base : Bytes → RTrans
  | wrapped : Nat → RTrans → RTrans
  deriving DecidableEq, Repr

/-- The certificate manager as `getClient` consumes it in one call:
`Signature()` and whether `tls.X509KeyPair` succeeds on the current material
(`createTLSConfig`, lines 255-292, fails exactly when key-pair assembly fails). -/
structure CertManagerState where
  signature : Bytes
  buildOk : Bool
  deriving DecidableEq, Repr

/-- The mutable fields of `Client` that `getClient` reads and writes:
`certificateSignature` and `transport` (`none` is Go's nil `RoundTripper`). -/
structure ClientState where
  certificateSignature : Bytes
  transport : Option RTrans
  deriving DecidableEq, Repr

/-- The `Client` state as `New` (lines 64-69) leaves it: empty signature and
nil transport. -/
def newClient : ClientState := { certificateSignature := [], transport := none }

/-- The value `getClient` returns: an `http.Client` with the cached transport
and the fixed 2-second timeout. -/
structure HttpClientVal where
  transport : Option RTrans
  timeoutSeconds : Nat
  deriving DecidableEq, Repr

/-- Function `Client.createTransport` (lines 237-253) at the state level: build the base
transport from the current material, apply the single registered wrapper, and
report `createTLSConfig`'s error alongside (the transport is assembled even
when `err != nil`; the caller discards it on error). -/
def createTransportState (cm : CertManagerState) : RTrans × Option String :=
  (RTrans.wrapped 0 (RTrans.base cm.signature),
   if cm.buildOk then none else some "cannot create x509 key pair")

/-- Function `Client.getClient`: when the stored signature differs from the manager's
current one, rebuild the transport; on build failure return the error without
touching the state; on success store the new signature and transport. Always
wrap the (possibly nil) cached transport in a client with a 2-second timeout.
The third component is instrumentation, recording whether this call took the
rebuild branch. -/
def getClient (cm : CertManagerState) (c : ClientState) :
    Except String HttpClientVal × ClientState × Bool :=
  if c.certificateSignature = cm.signature then
    (.ok { transport := c.transport, timeoutSeconds := 2 }, c, false)
  else
    match createTransportState cm with
    | (_, some e) => (.error e, c, true)
    | (t, none) =>
      (.ok { transport := some t, timeoutSeconds := 2 },
       { certificateSignature := cm.signature, transport := some t }, true)

/-- A sequence of `getClient` calls threading the client state; returns the
final state and how many calls took the rebuild branch. -/
def runGetClients (cms : List CertManagerState) (c : ClientState) : ClientState × Nat :=
  match cms with
  | [] => (c, 0)
  | cm :: rest =>
    let step := getClient cm c
    let tail := runGetClients rest step.2.1
    (tail.1, (if step.2.2 then 1 else 0) + tail.2)

/-- Number of consecutive changes in a signature sequence, measured against the
signature stored before the first call. -/
def countSigChanges (prev : Bytes) : List Bytes → Nat
  | [] => 0
  | s :: rest => (if s = prev then 0 else 1) + countSigChanges s rest

/-! ## Profile manager tick (`Manager.run`, `src/unnamed/part_000` lines 84-93) -/

/-- What one firing of the ticker branch of `Manager.run` sends on `OutputCh`:
nothing when no evaluator is installed; otherwise the code runs
`results, err := m.profileEvaluator.Evaluate()` and sends `results` exactly
when `err != nil`. `evalResults`/`evalErr` are the two values `Evaluate`
returned on this tick; the result is `some m` when the mapping `m` is sent. -/
def tickEmission (hasEvaluator : Bool) (evalResults : List (String × String))
    (evalErr : Option String) : Option (List (String × String)) :=
  if hasEvaluator then
    match evalErr with
    | some _ => some evalResults
    | none => none
  else none

/-! ## Theorems -/

/-- The countdown loop of `createTransport` applies the first `n` wrappers as a
right fold over the list prefix. -/
theorem wrapFrom_eq_foldr_take {α : Type} (ws : List (α → α)) :
    ∀ (n : Nat), n ≤ ws.length → ∀ (base : α),
      wrapFrom ws n base = (ws.take n).foldr (fun w r => w r) base := by
  intro n
  induction n with
  | zero => intro _ base; rfl
  | succ k ih =>
    intro h base
    have hk : k < ws.length := Nat.lt_of_succ_le h
    have hget : ws[k]? = some (ws.getD k id) := by
      simp [List.getD, List.getElem?_eq_getElem hk]
    rw [wrapFrom, ih (Nat.le_of_lt hk), List.take_succ, hget]
    simp [List.foldr_append]

/-- C2: `createTransport` folds the wrapper list from the last index to the
first, replacing the running result with `wrapper(result)`; hence for wrappers
`[A, B, C]` over any base the result is `A (B (C base))`, the first-registered
wrapper is outermost, and — on tracing round trippers — the first-registered
wrapper stamps the request first and the response last, while the
last-registered one sits closest to the base transport. -/
theorem createTransport_wrapper_order :
    (∀ (α : Type) (ws : List (α → α)) (base : α),
        wrapTransports ws base = ws.foldr (fun w r => w r) base) ∧
    (∀ (α : Type) (A B C : α → α) (base : α),
        wrapTransports [A, B, C] base = A (B (C base))) ∧
    (∀ a b c : Nat,
        wrapTransports [traceWrapper a, traceWrapper b, traceWrapper c] traceBase []
          = [a, b, c, 1000, c, b, a]) := by
  refine ⟨?_, ?_, ?_⟩
  · intro α ws base
    simpa using wrapFrom_eq_foldr_take ws ws.length (Nat.le_refl _) base
  · intro α A B C base
    rfl
  · intro a b c
    rfl

/-- C1: `getClient` takes the rebuild branch exactly when the manager's current
signature differs from the stored one; with equal signatures the cached
transport is returned and the state untouched; a successful call stores the
current signature; and over any sequence of calls with successful builds, the
number of rebuilds equals the number of distinct consecutive signature
changes. -/
theorem getClient_rotation_invariant :
    (∀ (cm : CertManagerState) (c : ClientState),
        (getClient cm c).2.2 = true ↔ c.certificateSignature ≠ cm.signature) ∧
    (∀ (cm : CertManagerState) (c : ClientState),
        c.certificateSignature = cm.signature →
          getClient cm c = (.ok ⟨c.transport, 2⟩, c, false)) ∧
    (∀ (cm : CertManagerState) (c : ClientState),
        cm.buildOk = true →
          ((getClient cm c).2.1).certificateSignature = cm.signature) ∧
    (∀ (sigs : List Bytes) (c : ClientState),
        (runGetClients (sigs.map fun s => ⟨s, true⟩) c).2
          = countSigChanges c.certificateSignature sigs) := by
  refine ⟨?_, ?_, ?_, ?_⟩
  · intro cm c
    by_cases h : c.certificateSignature = cm.signature
    · simp [getClient, h]
    · simp [getClient, createTransportState, h]
      cases cm.buildOk <;> simp
  · intro cm c h
    simp [getClient, h]
  · intro cm c hok
    by_cases h : c.certificateSignature = cm.signature <;>
      simp [getClient, createTransportState, h, hok]
  · intro sigs
    induction sigs with
    | nil => intro c; rfl
    | cons s rest ih =>
      intro c
      by_cases h : c.certificateSignature = s
      · simpa [runGetClients, getClient, h, countSigChanges] using ih c
      · have hih := ih { certificateSignature := s, transport := some (.wrapped 0 (.base s)) }
        simp only [] at hih
        simp [runGetClients, getClient, createTransportState, h, Ne.symm h, countSigChanges]
        omega

/-- Witness for the rotation invariant: a concrete call with matching
signatures reuses the cached transport unchanged, and a concrete two-change
sequence rebuilds exactly twice. -/
theorem getClient_rotation_invariant_witness :
    getClient ⟨[1], true⟩ { certificateSignature := [1], transport := none }
      = (.ok ⟨none, 2⟩, { certificateSignature := [1], transport := none }, false) ∧
    (runGetClients [⟨[1], true⟩, ⟨[1], true⟩, ⟨[2], true⟩] newClient).2 = 2 :=
  ⟨getClient_rotation_invariant.2.1 ⟨[1], true⟩
      { certificateSignature := [1], transport := none } rfl,
   (getClient_rotation_invariant.2.2.2 [[1], [1], [2]] newClient).trans (by decide)⟩

/-- C5: when the rebuild branch is taken and transport creation fails, the
`getClient` call returns the key-pair error and leaves the whole client state —
cached transport and stored signature — exactly as it was, and a subsequent
call under the old signature still reuses the previously cached transport. -/
theorem getClient_build_failure_preserves_state :
    ∀ (sig : Bytes) (c : ClientState), c.certificateSignature ≠ sig →
      getClient ⟨sig, false⟩ c = (.error "cannot create x509 key pair", c, true) ∧
      getClient ⟨c.certificateSignature, true⟩ c = (.ok ⟨c.transport, 2⟩, c, false) := by
  intro sig c h
  constructor
  · simp [getClient, createTransportState, h]
  · simp [getClient]

/-- Witness for build-failure preservation: a client holding a working cached
transport for signature `[1]` survives a failed rebuild towards `[2]`
untouched, and still serves the cached transport afterwards. -/
theorem getClient_build_failure_preserves_state_witness :
    getClient ⟨[2], false⟩ ⟨[1], some (.wrapped 0 (.base [1]))⟩
      = (.error "cannot create x509 key pair",
         ⟨[1], some (.wrapped 0 (.base [1]))⟩, true) ∧
    getClient ⟨[1], true⟩ ⟨[1], some (.wrapped 0 (.base [1]))⟩
      = (.ok ⟨some (.wrapped 0 (.base [1])), 2⟩,
         ⟨[1], some (.wrapped 0 (.base [1]))⟩, false) :=
  getClient_build_failure_preserves_state [2]
    ⟨[1], some (.wrapped 0 (.base [1]))⟩ (by decide)

/-- C10: `New` stores the empty byte sequence as the certificate signature;
when the manager's signature is also empty, `getClient` reuses the nil cached
transport — it returns a client whose transport field is nil (so requests
would fall back to Go's process-wide default transport, without the mTLS
configuration) — and any number of such calls never builds a transport. -/
theorem new_client_empty_signature_no_transport :
    newClient.certificateSignature = [] ∧
    (∀ b : Bool, getClient ⟨[], b⟩ newClient = (.ok ⟨none, 2⟩, newClient, false)) ∧
    (∀ n : Nat, runGetClients (List.replicate n ⟨[], true⟩) newClient = (newClient, 0)) := by
  refine ⟨rfl, fun b => rfl, ?_⟩
  intro n
  induction n with
  | zero => rfl
  | succ k ih =>
    simp only [newClient] at ih
    simp [List.replicate_succ, runGetClients, getClient, newClient, ih]

/-- C3: with a field-keyed content lacking the `certificate` key, `Register`
returns the empty registration response plus a descriptive error; with the key
mapped to a string, it returns no error and the signed-CSR bytes are exactly
the bytes of that string. -/
theorem register_certificate_narrowing :
    (∀ (fields : List (String × JValue)) (status : Nat),
        lookupField fields certificateKey = none →
          register ⟨status, .wellFormed ⟨.jobj fields⟩⟩
            = .ret ⟨[]⟩ (some "cannot get certificate from payload")) ∧
    (∀ (fields : List (String × JValue)) (s : String) (status : Nat),
        lookupField fields certificateKey = some (.jstr s) →
          register ⟨status, .wellFormed ⟨.jobj fields⟩⟩ = .ret ⟨stringBytes s⟩ none) := by
  constructor
  · intro fields status h
    simp [register, processResponse, h]
  · intro fields s status h
    simp [register, processResponse, h]

/-- Witness for the Register narrowing: a content without `certificate` fails
descriptively; `certificate: "ab"` yields no error and exactly the two bytes
of `"ab"`. -/
theorem register_certificate_narrowing_witness :
    register ⟨200, .wellFormed ⟨.jobj [("kind", .jstr "x")]⟩⟩
      = .ret ⟨[]⟩ (some "cannot get certificate from payload") ∧
    register ⟨200, .wellFormed ⟨.jobj [("certificate", .jstr "ab")]⟩⟩
      = .ret ⟨stringBytes "ab"⟩ none ∧
    stringBytes "ab" = [97, 98] :=
  ⟨register_certificate_narrowing.1 [("kind", .jstr "x")] 200 rfl,
   register_certificate_narrowing.2 [("certificate", .jstr "ab")] "ab" 200 rfl,
   by decide⟩

/-- C4 (code evaluation at the failing input): a reply whose content maps
`certificate` to the number `42` drives `Register` into the unchecked Go type
assertion `cert.(string)`, which panics instead of returning an error value. -/
theorem register_nonstring_certificate_panics :
    register ⟨200, .wellFormed ⟨.jobj [("certificate", .jnum 42)]⟩⟩
      = .panicked "interface conversion: certificate value is not a string" := by
  decide

/-- C6: for the non-decoding operations Enrol and Heartbeat, every status of
399 or below yields a nil error, every status of 400 or above yields an error
naming the operation and the status code; in particular at each of 200, 201,
399, 400 and 500. -/
theorem enrol_heartbeat_status_threshold :
    (∀ s : Nat, enrolStatusError s = none ↔ s < 400) ∧
    (∀ s : Nat, heartbeatStatusError s = none ↔ s < 400) ∧
    (∀ s : Nat, 400 ≤ s →
        enrolStatusError s = some ("cannot enrol device. code: " ++ toString s) ∧
        heartbeatStatusError s = some ("cannot send heartbeat. code: " ++ toString s)) ∧
    (enrolStatusError 200 = none ∧ enrolStatusError 201 = none ∧
     enrolStatusError 399 = none ∧
     enrolStatusError 400 = some "cannot enrol device. code: 400" ∧
     enrolStatusError 500 = some "cannot enrol device. code: 500") ∧
    (heartbeatStatusError 200 = none ∧ heartbeatStatusError 201 = none ∧
     heartbeatStatusError 399 = none ∧
     heartbeatStatusError 400 = some "cannot send heartbeat. code: 400" ∧
     heartbeatStatusError 500 = some "cannot send heartbeat. code: 500") := by
  refine ⟨?_, ?_, ?_, by decide, by decide⟩
  · intro s
    unfold enrolStatusError
    split <;> simp <;> omega
  · intro s
    unfold heartbeatStatusError
    split <;> simp <;> omega
  · intro s h
    constructor <;> simp [enrolStatusError, heartbeatStatusError, h]

/-- Witness for the status threshold at status 503: both operations fail with
the operation name and the code in the message. -/
theorem enrol_heartbeat_status_threshold_witness :
    enrolStatusError 503 = some "cannot enrol device. code: 503" ∧
    heartbeatStatusError 503 = some "cannot send heartbeat. code: 503" :=
  ⟨(enrol_heartbeat_status_threshold.2.2.1 503 (by decide)).1.trans (by decide),
   (enrol_heartbeat_status_threshold.2.2.1 503 (by decide)).2.trans (by decide)⟩

/-- C7 counterexample: for server address `https://example.com` and device
`d1`, the URL the code builds is NOT the claimed
`https://example.com/api/flotta-management/v1/data/d1/out` — the format string
`"%s/%s/data/%s/out"` inserts a slash in front of `rootUrl`, which itself
starts with one. -/
theorem enrol_url_double_slash_counterexample :
    outgoingUrl "https://example.com" "d1"
      ≠ "https://example.com/api/flotta-management/v1/data/d1/out" := by
  decide

/-- C7 amended: the outgoing URL is the server address, then a DOUBLE slash,
then `api/flotta-management/v1/data/`, the device id and `/out`; the
GetConfiguration URL likewise with `/in`. -/
theorem request_url_shape :
    ∀ (server deviceID : String),
      outgoingUrl server deviceID
        = server ++ "//api/flotta-management/v1/data/" ++ deviceID ++ "/out" ∧
      incomingUrl server deviceID
        = server ++ "//api/flotta-management/v1/data/" ++ deviceID ++ "/in" := by
  intro server dev
  have h : ∀ y : String,
      "/" ++ (rootUrl ++ ("/data/" ++ y)) = "//api/flotta-management/v1/data/" ++ y := by
    intro y
    rw [← String.append_assoc, ← String.append_assoc,
      show ("/" ++ rootUrl) ++ "/data/" = "//api/flotta-management/v1/data/" from by decide]
  constructor
  · show server ++ "/" ++ rootUrl ++ "/data/" ++ dev ++ "/out" = _
    rw [String.append_assoc (server ++ "/" ++ rootUrl), String.append_assoc (server ++ "/"),
      String.append_assoc server, h, ← String.append_assoc]
  · show server ++ "/" ++ rootUrl ++ "/data/" ++ dev ++ "/in" = _
    rw [String.append_assoc (server ++ "/" ++ rootUrl), String.append_assoc (server ++ "/"),
      String.append_assoc server, h, ← String.append_assoc]

/-- C8: the decoding operations never branch on the HTTP status code — their
whole outcome is a function of the body alone: same body, any two statuses,
same result; a malformed body is a descriptive error at every status; and a
body that decodes successfully succeeds even under a non-2xx status. -/
theorem decoding_ops_ignore_status :
    (∀ (s1 s2 : Nat) (b : Body), register ⟨s1, b⟩ = register ⟨s2, b⟩) ∧
    (∀ (γ : Type) (tr : JValue → Option γ) (d : γ) (s1 s2 : Nat) (b : Body),
        getConfiguration tr d ⟨s1, b⟩ = getConfiguration tr d ⟨s2, b⟩) ∧
    (∀ s : Nat, register ⟨s, .malformed⟩
        = .ret ⟨[]⟩ (some "cannot read marshal body into message response")) ∧
    (∀ s : Nat, register ⟨s, .wellFormed ⟨.jobj [(certificateKey, .jstr "c1")]⟩⟩
        = .ret ⟨stringBytes "c1"⟩ none) :=
  ⟨fun _ _ _ => rfl, fun _ _ _ _ _ _ => rfl, fun _ => rfl, fun _ => rfl⟩

/-- C9 (code evaluation at the failing input): on a tick where the evaluator
is installed and `Evaluate` succeeds with a non-empty transition map, the
manager emits nothing; on a tick where `Evaluate` fails, it emits the
error-case result map. The `if err != nil` guard in `Manager.run` inverts the
intended success check. -/
theorem manager_tick_emission_at_failing_input :
    tickEmission true [("cpu", "degraded")] none = none ∧
    tickEmission true [] (some "evaluation error") = some [] := by
  decide

end DeviceWorker
